import Mathlib

/-!
Verification of the request-time access-control guard of the
vertex-ai-creative-studio repository.

The embedding follows `src/main.py` (middleware `set_request_context`) and
`src/models/budget.py` (`evaluate_budget`, `get_monthly_cloud_cost`,
`BudgetStatus`).  External collaborators (Firestore lookups, BigQuery
queries) are modelled as explicit inputs: a lookup either raises (an
`Except.error` carrying the exception message) or returns a value
(`Except.ok`), mirroring the Python functions' `Optional` returns and
exception behaviour.  Monetary amounts (Python floats used only for
ordering comparisons) are embedded as rationals.  Each guard/evaluator
run also returns the list of external lookups it performed, so that
short-circuiting and frame ("no lookup happens") properties are provable.
-/

/-- Python truthiness-based `a or b` for strings: empty string is falsy. -/
def pyOr (a b : String) : String := if a = "" then b else a

/-- Python `s.startswith(p)` on the underlying character lists (structural, so that
`decide` can evaluate it). -/
def strStartsWith (s p : String) : Bool := p.data.isPrefixOf s.data

/-- Python `s.endswith(p)` on the underlying character lists. -/
def strEndsWith (s p : String) : Bool := p.data.reverse.isPrefixOf s.data.reverse

/-- Python `s.lower()` character by character. -/
def strToLower (s : String) : String := String.mk (s.data.map Char.toLower)

/-- Python `str.split(sep)` on a single-character separator, over the
character list: `pySplitOn c l` is the list of chunks between occurrences
of `c` (always non-empty, like Python's `split`). -/
def pySplitOn (sep : Char) : List Char → List (List Char)
  | [] => [[]]
  | c :: rest =>
    if c = sep then
      [] :: pySplitOn sep rest
    else
      match pySplitOn sep rest with
      | [] => [[c]]
      | h :: t => (c :: h) :: t

/-- The expression `user_email.split(":")[-1]` from `src/main.py` line 222. -/
def splitColonLast (s : String) : String :=
  String.mk ((pySplitOn ':' s.data).getLastD [])

/-- The `public_prefixes` tuple of `set_request_context` (`src/main.py`
lines 181-192). -/
def public_prefixes : List String :=
  ["/favicon.ico", "/static", "/assets", "/__web-components-module__",
   "/__ui__", "/.well-known", "/api/", "/auth/", "/setup_department",
   "/budget_exceeded"]

/-- The `asset_exts` tuple of `set_request_context` (`src/main.py`
lines 193-213). -/
def asset_exts : List String :=
  [".js", ".mjs", ".css", ".map", ".json", ".png", ".jpg", ".jpeg", ".gif",
   ".svg", ".ico", ".woff", ".woff2", ".ttf", ".eot", ".wasm", ".webp",
   ".mp4", ".webm"]

/-- The check `any(path.startswith(p) for p in public_prefixes)` (`src/main.py` line 214). -/
def is_public_prefixed (path : String) : Bool :=
  public_prefixes.any (fun p => strStartsWith path p)

/-- The check `any(path.lower().endswith(ext) for ext in asset_exts)` (`src/main.py`
line 215). -/
def is_asset_request (path : String) : Bool :=
  asset_exts.any (fun e => strEndsWith (strToLower path) e)

/-- The guard's bypass condition `is_public_prefix or is_asset_request`
(`src/main.py` line 236).  Pure and total by construction. -/
def is_exempt (path : String) : Bool :=
  is_public_prefixed path || is_asset_request path

/-- The identity-resolution block of `set_request_context` (`src/main.py`
lines 217-222): header absent or empty falls back to the anonymous
address; a header starting with the provider prefix is split on `:` and
the last segment is kept; otherwise the header is returned verbatim. -/
def resolve_identity (header : Option String) : String :=
  let e := header.getD ""
  let e := if e = "" then "anonymous@google.com" else e
  if strStartsWith e "accounts.google.com:" then splitColonLast e else e

/-- Which external lookup a guard/evaluator run performed, in order:
`get_user_department`, `get_department_budget`, `get_monthly_cloud_cost`. -/
inductive LookupKind where
  | department
  | budgetRec
  | cost
deriving DecidableEq, Repr

/-- The external collaborators of `src/models/budget.py`: each lookup
either raises (`Except.error` with the exception message) or returns its
`Optional` result.  `get_user_department` never returns an empty string
(`src/models/budget.py` lines 50-54) but the guard re-checks falsiness, so
the model allows it. -/
structure Stores where
  get_user_department : String → Except String (Option String)
  get_department_budget : String → Except String (Option ℚ)
  get_monthly_cloud_cost : Except String (Option ℚ)

/-- The `BudgetStatus` dataclass (`src/models/budget.py` lines 24-31). -/
structure BudgetStatus where
  email : String
  department : Option String
  budget : Option ℚ
  monthly_cost : Option ℚ
  within_budget : Option Bool
  error : Option String := none
deriving DecidableEq, Repr

/-- Function `evaluate_budget` (`src/models/budget.py` lines 167-192), with the
performed lookups recorded; an exception in a lookup propagates
(`Except.error`), as the Python function has no handler. -/
def evaluate_budget (st : Stores) (email : String) :
    Except String (BudgetStatus × List LookupKind) :=
  match st.get_user_department email with
  | .error e => .error e
  | .ok none =>
      .ok (⟨email, none, none, none, none, some "missing_user"⟩,
           [.department])
  | .ok (some d) =>
      if d = "" then
        .ok (⟨email, none, none, none, none, some "missing_user"⟩,
             [.department])
      else
        match st.get_department_budget d with
        | .error e => .error e
        | .ok none =>
            .ok (⟨email, some d, none, none, none, some "missing_budget"⟩,
                 [.department, .budgetRec])
        | .ok (some budget) =>
            match st.get_monthly_cloud_cost with
            | .error e => .error e
            | .ok none =>
                .ok (⟨email, some d, some budget, none, none,
                      some "cost_unavailable"⟩,
                     [.department, .budgetRec, .cost])
            | .ok (some cost) =>
                .ok (⟨email, some d, some budget, some cost,
                      some (decide (cost ≤ budget)), none⟩,
                     [.department, .budgetRec, .cost])

/-- The outcome `set_request_context` produces for a request: an early
redirect, or the downstream response with the session cookie set on it. -/
inductive GuardResult where
  | redirect (url : String) (status : Nat)
  | next (response : String) (session_cookie : String)
deriving DecidableEq, Repr

/-- Result of one run of the guard: the response outcome plus the external
lookups that were performed. -/
structure GuardOutput where
  result : GuardResult
  lookups : List LookupKind
deriving DecidableEq, Repr

/-- One request's inputs to `set_request_context`: URL path, the
`X-Goog-Authenticated-User-Email` header, the `session_id` cookie, the
fresh UUID that `str(uuid.uuid4())` would mint, the
`config.Default.BUDGET_CHECK_ENABLED` flag, the external stores, and the
(opaque) downstream response `await call_next(request)` would return. -/
structure GuardEnv where
  path : String
  header : Option String
  cookie_session : Option String
  fresh_uuid : String
  budget_check_enabled : Bool
  stores : Stores
  call_next : String

/-- The expression `request.cookies.get("session_id") or str(uuid.uuid4())`
(`src/main.py` line 225). -/
def session_of (env : GuardEnv) : String :=
  match env.cookie_session with
  | some s => pyOr s env.fresh_uuid
  | none => env.fresh_uuid

/-- The `set_request_context` middleware (`src/main.py` lines 175-276).
The ASGI-scope stashes (`MESOP_USER_EMAIL`, `MESOP_SESSION_ID`,
`MESOP_GA_MEASUREMENT_ID`) annotate the request and do not affect the
response, so they are not part of the output.  The `try/except` blocks
around the department lookup and the budget section are modelled by the
`Except.error` branches. -/
def set_request_context (env : GuardEnv) : GuardOutput :=
  if is_exempt (pyOr env.path "/") then
    ⟨.next env.call_next (session_of env), []⟩
  else
    match env.stores.get_user_department (resolve_identity env.header) with
    | .error _ => ⟨.redirect "/setup_department" 302, [.department]⟩
    | .ok none => ⟨.redirect "/setup_department" 302, [.department]⟩
    | .ok (some d) =>
      if d = "" then ⟨.redirect "/setup_department" 302, [.department]⟩
      else if env.budget_check_enabled then
        match env.stores.get_department_budget d with
        | .error _ =>
            ⟨.redirect "/budget_exceeded" 302, [.department, .budgetRec]⟩
        | .ok none =>
            ⟨.redirect "/budget_exceeded" 302, [.department, .budgetRec]⟩
        | .ok (some dept_budget) =>
          match env.stores.get_monthly_cloud_cost with
          | .error _ =>
              ⟨.redirect "/budget_exceeded" 302,
               [.department, .budgetRec, .cost]⟩
          | .ok none =>
              ⟨.redirect "/budget_exceeded" 302,
               [.department, .budgetRec, .cost]⟩
          | .ok (some monthly_cost) =>
            if monthly_cost > dept_budget then
              ⟨.redirect "/budget_exceeded" 302,
               [.department, .budgetRec, .cost]⟩
            else
              ⟨.next env.call_next (session_of env),
               [.department, .budgetRec, .cost]⟩
      else ⟨.next env.call_next (session_of env), [.department]⟩

/-- The configuration identifiers `get_monthly_cloud_cost` reads
(`src/models/budget.py` lines 102-105); a Python `None` or unset
environment value is the empty (falsy) string. -/
structure BillingCfg where
  BILLING_DATASET : String
  BILLING_TABLE : String
  BILLING_PROJECT_ID : String
  PROJECT_ID : String
deriving DecidableEq, Repr

/-- What a successful BigQuery billing query yields: no result row, or a
row whose `total_cost` field may be SQL NULL. -/
inductive QueryRow where
  | noRow
  | row (total : Option ℚ)
deriving DecidableEq, Repr

/-- Which of the two query shapes of `get_monthly_cloud_cost` ran. -/
inductive QueryKind where
  | primary
  | fallback
deriving DecidableEq, Repr

/-- The result-interpretation code shared by both query branches
(`src/models/budget.py` lines 136-141 and 157-162): no row yields `0.0`,
a NULL total yields `0.0`, otherwise the total. -/
def interpret_row : QueryRow → ℚ
  | .noRow => 0
  | .row none => 0
  | .row (some t) => t

/-- The guard condition `not (billing_project and billing_dataset and
billing_table and target_project)` of `src/models/budget.py` lines
102-107, with the Python truthiness-based `or`-defaulting of
`BILLING_PROJECT_ID` to `PROJECT_ID` (line 104) and of the `project_id`
argument to `PROJECT_ID` (line 105) spelled out via `pyOr`. -/
def missing_billing_ids (cfg : BillingCfg) (project_id : String) : Prop :=
  pyOr cfg.BILLING_PROJECT_ID cfg.PROJECT_ID = "" ∨
  cfg.BILLING_DATASET = "" ∨ cfg.BILLING_TABLE = "" ∨
  pyOr project_id cfg.PROJECT_ID = ""

instance (cfg : BillingCfg) (project_id : String) :
    Decidable (missing_billing_ids cfg project_id) := by
  unfold missing_billing_ids; infer_instance

/-- Function `get_monthly_cloud_cost` (`src/models/budget.py` lines 92-164).  The
two BigQuery query executions are inputs (`primary` for the
usage_start_time query, `fallback` for the invoice.month query): each
either raises or yields a row outcome.  The returned list records which
queries were attempted, in order. -/
def get_monthly_cloud_cost (cfg : BillingCfg) (project_id : String)
    (primary fallback : Except String QueryRow) :
    Option ℚ × List QueryKind :=
  if missing_billing_ids cfg project_id then
    (none, [])
  else
    match primary with
    | .ok r => (some (interpret_row r), [.primary])
    | .error _ =>
      match fallback with
      | .ok r => (some (interpret_row r), [.primary, .fallback])
      | .error _ => (none, [.primary, .fallback])

/-- Concrete stores used to witness the theorems: one user with a
department, a budget for that department, and an in-budget monthly cost. -/
def demoStores : Stores where
  get_user_department := fun e =>
    if e = "a@x.com" then .ok (some "Sales") else .ok none
  get_department_budget := fun d =>
    if d = "Sales" then .ok (some 1000) else .ok none
  get_monthly_cloud_cost := .ok (some 900)

/-- Stores whose department lookup raises. -/
def deptRaisingStores : Stores where
  get_user_department := fun _ => .error "firestore down"
  get_department_budget := fun _ => .ok none
  get_monthly_cloud_cost := .ok none

/-- Stores whose budget lookup raises. -/
def budgetRaisingStores : Stores where
  get_user_department := fun _ => .ok (some "Sales")
  get_department_budget := fun _ => .error "firestore down"
  get_monthly_cloud_cost := .ok none

/-- A request environment used to witness the theorems. -/
def demoEnv : GuardEnv where
  path := "/home"
  header := some "accounts.google.com:a@x.com"
  cookie_session := none
  fresh_uuid := "uuid-1"
  budget_check_enabled := true
  stores := demoStores
  call_next := "downstream-response"

/-- A fully-populated billing configuration for witnesses. -/
def demoCfg : BillingCfg where
  BILLING_DATASET := "billing_ds"
  BILLING_TABLE := "gcp_billing_export"
  BILLING_PROJECT_ID := "billing-proj"
  PROJECT_ID := "app-proj"


/-- A Python-style split never produces the empty list of chunks. -/
theorem pySplitOn_ne_nil (sep : Char) (l : List Char) :
    pySplitOn sep l ≠ [] := by
  induction l with
  | nil => simp [pySplitOn]
  | cons c rest ih =>
    by_cases hc : c = sep
    · simp [pySplitOn, hc]
    · simp only [pySplitOn, if_neg hc]
      cases hp : pySplitOn sep rest with
      | nil => exact absurd hp ih
      | cons h t => simp

/-- Splitting a list that does not contain the separator yields a single
chunk: the list itself. -/
theorem pySplitOn_of_not_mem (sep : Char) (l : List Char) (h : sep ∉ l) :
    pySplitOn sep l = [l] := by
  induction l with
  | nil => rfl
  | cons c rest ih =>
    have hc : c ≠ sep := fun hc => h (hc ▸ List.mem_cons_self c rest)
    have hrest : sep ∉ rest := fun hr => h (List.mem_cons_of_mem c hr)
    simp only [pySplitOn, if_neg hc, ih hrest]

/-- Splitting a list that contains the separator yields at least two
chunks. -/
theorem pySplitOn_length_of_mem (sep : Char) (l : List Char) (h : sep ∈ l) :
    2 ≤ (pySplitOn sep l).length := by
  induction l with
  | nil => cases h
  | cons c rest ih =>
    by_cases hc : c = sep
    · simp only [pySplitOn, if_pos hc, List.length_cons]
      have := pySplitOn_ne_nil sep rest
      have : 1 ≤ (pySplitOn sep rest).length :=
        Nat.one_le_iff_ne_zero.mpr (by simpa using this)
      omega
    · have hrest : sep ∈ rest := by
        cases List.mem_cons.mp h with
        | inl h0 => exact absurd h0.symm hc
        | inr h0 => exact h0
      simp only [pySplitOn, if_neg hc]
      cases hp : pySplitOn sep rest with
      | nil => exact absurd hp (pySplitOn_ne_nil sep rest)
      | cons hd tl =>
        have := ih hrest
        rw [hp] at this
        simpa using this

/-- The last chunk of a split is the suffix after the last separator. -/
theorem pySplitOn_getLast? (sep : Char) (pre r : List Char) (h : sep ∉ r) :
    (pySplitOn sep (pre ++ sep :: r)).getLast? = some r := by
  induction pre with
  | nil =>
    simp only [List.nil_append, pySplitOn, if_pos rfl,
      pySplitOn_of_not_mem sep r h]
    rfl
  | cons a pre' ih =>
    by_cases ha : a = sep
    · simp only [List.cons_append, pySplitOn, if_pos ha]
      cases hp : pySplitOn sep (pre' ++ sep :: r) with
      | nil => exact absurd hp (pySplitOn_ne_nil _ _)
      | cons hd tl =>
        rw [hp] at ih
        rw [List.getLast?_cons_cons]
        exact ih
    · simp only [List.cons_append, pySplitOn, if_neg ha]
      cases hp : pySplitOn sep (pre' ++ sep :: r) with
      | nil => exact absurd hp (pySplitOn_ne_nil _ _)
      | cons hd tl =>
        have hlen : 2 ≤ (pySplitOn sep (pre' ++ sep :: r)).length :=
          pySplitOn_length_of_mem sep _ (by simp)
        rw [hp] at hlen ih
        cases tl with
        | nil => simp at hlen
        | cons b tl' =>
          rw [List.getLast?_cons_cons] at ih ⊢
          exact ih

/-- The suffix-after-last-colon characterisation of `splitColonLast`. -/
theorem splitColonLast_eq_suffix (pre r : List Char) (h : ':' ∉ r)
    (s : String) (hs : s.data = pre ++ ':' :: r) :
    splitColonLast s = String.mk r := by
  unfold splitColonLast
  rw [hs, List.getLastD_eq_getLast?, pySplitOn_getLast? ':' pre r h]
  rfl

/-- Every element of `asset_exts` is already lower-case, so matching it
against the lowered path is a case-insensitive suffix match. -/
theorem asset_exts_toLower_fixed : ∀ e ∈ asset_exts, strToLower e = e := by
  decide

/-- C7 counterexample: for the header `accounts.google.com:a:b`, whose
part after the provider prefix is `a:b` and contains a further colon, the
resolver returns `b` (the part after the last colon), not `a:b` as the
claim states. -/
theorem C7_counterexample :
    resolve_identity (some "accounts.google.com:a:b") = "b" ∧
    resolve_identity (some "accounts.google.com:a:b") ≠ "a:b" := by
  decide

/-- C7 (amended): the identity resolver is total and returns the fixed
anonymous address when the header is absent or empty; when the header
starts with the provider prefix `accounts.google.com:` it returns the
substring after the LAST colon of the header (which equals the part after
the provider prefix exactly when that part contains no further colon);
and the header verbatim otherwise. -/
theorem C7_resolve_identity (h : Option String) :
    ((h = none ∨ h = some "") →
      resolve_identity h = "anonymous@google.com") ∧
    (∀ (s : String) (pre r : List Char),
      h = some s → s.data = pre ++ ':' :: r → ':' ∉ r →
      strStartsWith s "accounts.google.com:" = true →
      resolve_identity h = String.mk r) ∧
    (∀ s : String, h = some s → s ≠ "" →
      strStartsWith s "accounts.google.com:" = false →
      resolve_identity h = s) := by
  refine ⟨?_, ?_, ?_⟩
  · rintro (rfl | rfl) <;> decide
  · rintro s pre r rfl hdata hmem hsw
    have hsne : s ≠ "" := by
      intro h0
      rw [h0] at hdata
      exact absurd hdata.symm (by simp)
    unfold resolve_identity
    simp only [Option.getD_some, if_neg hsne, hsw, if_true]
    exact splitColonLast_eq_suffix pre r hmem s hdata
  · rintro s rfl hsne hsw
    unfold resolve_identity
    simp only [Option.getD_some, if_neg hsne, hsw, Bool.false_eq_true,
      if_false]

/-- C7 witness: the amended theorem applied to the concrete header
`accounts.google.com:a@x.com` yields the email `a@x.com`. -/
theorem C7_witness :
    resolve_identity (some "accounts.google.com:a@x.com") =
      String.mk "a@x.com".data :=
  (C7_resolve_identity (some "accounts.google.com:a@x.com")).2.1
    "accounts.google.com:a@x.com" "accounts.google.com".data "a@x.com".data
    rfl (by decide) (by decide) (by decide)

/-- C8: the path classifier is pure and total (a Lean function on
strings) and decides exemption as: the path starts with one of the
enumerated public prefixes (case-sensitive match), or the lowered path
ends with one of the enumerated asset extensions, each already
lower-case, i.e. a case-insensitive suffix match; the prefix set contains
the onboarding path `/setup_department` and the blocked path
`/budget_exceeded`. -/
theorem C8_path_classifier (path : String) :
    (is_exempt path = true ↔
      ((∃ p ∈ public_prefixes, strStartsWith path p = true) ∨
       (∃ e ∈ asset_exts,
          strEndsWith (strToLower path) (strToLower e) = true))) ∧
    "/setup_department" ∈ public_prefixes ∧
    "/budget_exceeded" ∈ public_prefixes := by
  refine ⟨?_, by decide, by decide⟩
  unfold is_exempt is_public_prefixed is_asset_request
  simp only [Bool.or_eq_true, List.any_eq_true]
  constructor
  · rintro (⟨p, hp, hsp⟩ | ⟨e, he, hse⟩)
    · exact Or.inl ⟨p, hp, hsp⟩
    · exact Or.inr ⟨e, he, by rwa [asset_exts_toLower_fixed e he]⟩
  · rintro (⟨p, hp, hsp⟩ | ⟨e, he, hse⟩)
    · exact Or.inl ⟨p, hp, hsp⟩
    · exact Or.inr ⟨e, he, by rwa [asset_exts_toLower_fixed e he] at hse⟩

/-- C1: on a non-exempt path, with a department present and budget
enforcement enabled, and with the budget and cost lookups returning
normally, the guard redirects (302) to `/budget_exceeded` iff the budget
record is absent, or the monthly cost is unavailable, or the cost
strictly exceeds the budget; whenever `cost ≤ budget` (equality
included) the request is passed through. -/
theorem C1_budget_gate (env : GuardEnv) (d : String) (bres cres : Option ℚ)
    (hex : is_exempt (pyOr env.path "/") = false)
    (hd : env.stores.get_user_department (resolve_identity env.header) =
      .ok (some d))
    (hd0 : d ≠ "")
    (hen : env.budget_check_enabled = true)
    (hb : env.stores.get_department_budget d = .ok bres)
    (hc : env.stores.get_monthly_cloud_cost = .ok cres) :
    ((set_request_context env).result = .redirect "/budget_exceeded" 302 ↔
      (bres = none ∨ cres = none ∨
        ∃ b c : ℚ, bres = some b ∧ cres = some c ∧ c > b)) ∧
    (∀ b c : ℚ, bres = some b → cres = some c → c ≤ b →
      (set_request_context env).result =
        .next env.call_next (session_of env)) := by
  unfold set_request_context
  rcases bres with _ | b
  · simp [hex, hd, hd0, hen, hb]
  · rcases cres with _ | c
    · simp [hex, hd, hd0, hen, hb, hc]
    · by_cases hcb : c > b
      · simp [hex, hd, hd0, hen, hb, hc, hcb, not_le.mpr hcb]
      · simp [hex, hd, hd0, hen, hb, hc, hcb]

/-- C1 witness: the demo user (department Sales, budget 1000, cost 900)
on `/home` is passed through with the session cookie. -/
theorem C1_witness :
    (set_request_context demoEnv).result =
      GuardResult.next "downstream-response" "uuid-1" :=
  (C1_budget_gate demoEnv "Sales" (some 1000) (some 900) (by decide) rfl
      (by decide) rfl rfl rfl).2 1000 900 rfl rfl (by norm_num)

/-- C2: on a non-exempt path, if the department lookup returns absent or
raises, the guard redirects (302) to `/setup_department`, whatever the
value of the budget-enforcement flag. -/
theorem C2_department_gate (env : GuardEnv)
    (hex : is_exempt (pyOr env.path "/") = false)
    (hd : env.stores.get_user_department (resolve_identity env.header) =
        .ok none ∨
      ∃ msg, env.stores.get_user_department (resolve_identity env.header) =
        .error msg) :
    ∀ flag : Bool,
      (set_request_context
          { env with budget_check_enabled := flag }).result =
        .redirect "/setup_department" 302 := by
  intro flag
  obtain ⟨path, header, cookie, uuid, oldFlag, stores, cn⟩ := env
  unfold set_request_context
  rcases hd with hd | ⟨msg, hd⟩ <;> simp_all

/-- C2 witness: the user `new@x.com`, who has no department record,
requesting `/home` with enforcement on, is redirected to onboarding. -/
theorem C2_witness :
    (set_request_context { demoEnv with header := some "new@x.com" }).result =
      GuardResult.redirect "/setup_department" 302 :=
  C2_department_gate { demoEnv with header := some "new@x.com" }
    (by decide) (Or.inl rfl) true

/-- C3: on a non-exempt path with a department present and enforcement
enabled, an exception raised by the budget lookup, or by the cost lookup,
is caught and converted to the 302 redirect to `/budget_exceeded` (the
guard itself is a total function, so no exception propagates and no
pass-through happens). -/
theorem C3_guard_exception (env : GuardEnv) (d : String)
    (hex : is_exempt (pyOr env.path "/") = false)
    (hd : env.stores.get_user_department (resolve_identity env.header) =
      .ok (some d))
    (hd0 : d ≠ "")
    (hen : env.budget_check_enabled = true)
    (hfail : (∃ msg, env.stores.get_department_budget d = .error msg) ∨
      (∃ (b : ℚ) (msg : String),
        env.stores.get_department_budget d = .ok (some b) ∧
        env.stores.get_monthly_cloud_cost = .error msg)) :
    (set_request_context env).result = .redirect "/budget_exceeded" 302 := by
  unfold set_request_context
  rcases hfail with ⟨msg, hb⟩ | ⟨b, msg, hb, hc⟩
  · simp [hex, hd, hd0, hen, hb]
  · simp [hex, hd, hd0, hen, hb, hc]

/-- C3 witness: with a budget lookup that raises, the demo user is
redirected to the blocked page. -/
theorem C3_witness :
    (set_request_context
        { demoEnv with stores := budgetRaisingStores }).result =
      GuardResult.redirect "/budget_exceeded" 302 :=
  C3_guard_exception { demoEnv with stores := budgetRaisingStores } "Sales"
    (by decide) rfl (by decide) rfl (Or.inl ⟨"firestore down", rfl⟩)

/-- C4: on an exempt path the guard performs no lookup at all and passes
the downstream response through with the session cookie set — for every
request environment, hence in particular for a user without a department
record. -/
theorem C4_exempt_bypass (env : GuardEnv)
    (hex : is_exempt (pyOr env.path "/") = true) :
    set_request_context env =
      ⟨.next env.call_next (session_of env), []⟩ := by
  unfold set_request_context
  simp [hex]

/-- C4 witness: the asset path `/static/app.js`, requested by a user with
no department record, bypasses the guard with no lookups. -/
theorem C4_witness :
    set_request_context
        { demoEnv with path := "/static/app.js",
                       header := some "new@x.com" } =
      ⟨GuardResult.next "downstream-response" "uuid-1", []⟩ :=
  C4_exempt_bypass
    { demoEnv with path := "/static/app.js", header := some "new@x.com" }
    (by decide)

/-- C5: `evaluate_budget` is a strict short-circuiting pipeline: absent
department yields `error=missing_user` with all other fields null and
only the department lookup performed; absent budget yields
`error=missing_budget` with no cost lookup; unavailable cost yields
`error=cost_unavailable` with the budget populated; otherwise
`within_budget = (cost ≤ budget)` with no error. -/
theorem C5_evaluate_pipeline (st : Stores) (email : String) :
    ((st.get_user_department email = .ok none ∨
      st.get_user_department email = .ok (some "")) →
      evaluate_budget st email =
        .ok (⟨email, none, none, none, none, some "missing_user"⟩,
             [.department])) ∧
    (∀ d : String, st.get_user_department email = .ok (some d) → d ≠ "" →
      (st.get_department_budget d = .ok none →
        evaluate_budget st email =
          .ok (⟨email, some d, none, none, none, some "missing_budget"⟩,
               [.department, .budgetRec])) ∧
      (∀ b : ℚ, st.get_department_budget d = .ok (some b) →
        (st.get_monthly_cloud_cost = .ok none →
          evaluate_budget st email =
            .ok (⟨email, some d, some b, none, none,
                  some "cost_unavailable"⟩,
                 [.department, .budgetRec, .cost])) ∧
        (∀ c : ℚ, st.get_monthly_cloud_cost = .ok (some c) →
          evaluate_budget st email =
            .ok (⟨email, some d, some b, some c, some (decide (c ≤ b)),
                  none⟩,
                 [.department, .budgetRec, .cost])))) := by
  refine ⟨?_, ?_⟩
  · rintro (hd | hd) <;> simp [evaluate_budget, hd]
  · intro d hd hd0
    refine ⟨fun hb => by simp [evaluate_budget, hd, hd0, hb], ?_⟩
    intro b hb
    exact ⟨fun hc => by simp [evaluate_budget, hd, hd0, hb, hc],
           fun c hc => by simp [evaluate_budget, hd, hd0, hb, hc]⟩

/-- C5 witness: the demo stores evaluated for `a@x.com` run all three
lookups and report within budget. -/
theorem C5_witness :
    evaluate_budget demoStores "a@x.com" =
      .ok (⟨"a@x.com", some "Sales", some 1000, some 900, some true, none⟩,
           [.department, .budgetRec, .cost]) :=
  ((((C5_evaluate_pipeline demoStores "a@x.com").2 "Sales" rfl
      (by decide)).2 1000 rfl).2) 900 rfl

/-- C6: every `BudgetStatus` produced by `evaluate_budget` has
`within_budget` non-null only when both `budget` and `monthly_cost` are
non-null, and then it equals `monthly_cost ≤ budget`. -/
theorem C6_within_budget_invariant (st : Stores) (email : String)
    (status : BudgetStatus) (trace : List LookupKind)
    (h : evaluate_budget st email = .ok (status, trace)) :
    ∀ w : Bool, status.within_budget = some w →
      ∃ b c : ℚ, status.budget = some b ∧ status.monthly_cost = some c ∧
        (w = true ↔ c ≤ b) := by
  intro w hw
  unfold evaluate_budget at h
  cases hd : st.get_user_department email with
  | error msg => rw [hd] at h; exact Except.noConfusion h
  | ok od =>
    simp only [hd] at h
    cases od with
    | none =>
      simp only [Except.ok.injEq, Prod.mk.injEq] at h
      obtain ⟨hs, -⟩ := h
      subst hs
      simp at hw
    | some d =>
      by_cases hd0 : d = ""
      · simp only [if_pos hd0, Except.ok.injEq, Prod.mk.injEq] at h
        obtain ⟨hs, -⟩ := h
        subst hs
        simp at hw
      · simp only [if_neg hd0] at h
        cases hb : st.get_department_budget d with
        | error msg => rw [hb] at h; exact Except.noConfusion h
        | ok ob =>
          simp only [hb] at h
          cases ob with
          | none =>
            simp only [Except.ok.injEq, Prod.mk.injEq] at h
            obtain ⟨hs, -⟩ := h
            subst hs
            simp at hw
          | some b =>
            cases hc : st.get_monthly_cloud_cost with
            | error msg => rw [hc] at h; exact Except.noConfusion h
            | ok oc =>
              simp only [hc] at h
              cases oc with
              | none =>
                simp only [Except.ok.injEq, Prod.mk.injEq] at h
                obtain ⟨hs, -⟩ := h
                subst hs
                simp at hw
              | some c =>
                simp only [Except.ok.injEq, Prod.mk.injEq] at h
                obtain ⟨hs, -⟩ := h
                subst hs
                simp only [Option.some.injEq] at hw
                subst hw
                exact ⟨b, c, rfl, rfl, by simp⟩

/-- C6 witness: the invariant instantiated on the demo evaluation, whose
status has budget 1000, cost 900 and `within_budget = some true`. -/
theorem C6_witness :
    ∃ b c : ℚ, some (1000 : ℚ) = some b ∧ some (900 : ℚ) = some c ∧
      (true = true ↔ c ≤ b) :=
  C6_within_budget_invariant demoStores "a@x.com"
    ⟨"a@x.com", some "Sales", some 1000, some 900, some true, none⟩
    [.department, .budgetRec, .cost] rfl true rfl

/-- C9: the cost oracle returns unavailable without running any query
when a billing identifier is falsy; and when the primary query raises,
the fallback query is attempted exactly once, with unavailable returned
iff that single fallback attempt also raises (a successful primary run
never attempts the fallback). -/
theorem C9_cost_oracle (cfg : BillingCfg) (pid : String)
    (primary fallback : Except String QueryRow) :
    (missing_billing_ids cfg pid →
      get_monthly_cloud_cost cfg pid primary fallback = (none, [])) ∧
    (¬ missing_billing_ids cfg pid →
      (∀ r, primary = .ok r →
        (get_monthly_cloud_cost cfg pid primary fallback).2 =
          [.primary]) ∧
      (∀ msg, primary = .error msg →
        ((get_monthly_cloud_cost cfg pid primary fallback).2.count
            QueryKind.fallback = 1) ∧
        ((get_monthly_cloud_cost cfg pid primary fallback).1 = none ↔
          ∃ m, fallback = .error m))) := by
  refine ⟨fun hm => by simp [get_monthly_cloud_cost, hm], fun hm => ⟨?_, ?_⟩⟩
  · rintro r rfl
    simp [get_monthly_cloud_cost, hm]
  · rintro msg rfl
    cases fallback with
    | ok r =>
      constructor
      · simp only [get_monthly_cloud_cost, if_neg hm]
        decide
      · simp [get_monthly_cloud_cost, hm]
    | error m2 =>
      constructor
      · simp only [get_monthly_cloud_cost, if_neg hm]
        decide
      · simp [get_monthly_cloud_cost, hm]

/-- C9 witness: with full billing configuration, a raising primary query
and a fallback returning a row, the fallback runs exactly once and the
result is available. -/
theorem C9_witness :
    ((get_monthly_cloud_cost demoCfg "" (.error "schema")
        (.ok (.row (some 42)))).2.count QueryKind.fallback = 1) ∧
    ((get_monthly_cloud_cost demoCfg "" (.error "schema")
        (.ok (.row (some 42)))).1 = none ↔
      ∃ m, (Except.ok (QueryRow.row (some 42)) : Except String QueryRow) =
        .error m) :=
  ((C9_cost_oracle demoCfg "" (.error "schema")
      (.ok (.row (some 42)))).2 (by decide)).2 "schema" rfl

/-- C10: a billing query (primary or fallback) that succeeds with no
result row, or a row whose total is NULL, yields cost `0` rather than
unavailable; and a zero cost passes the guard's budget comparison for
every non-negative budget, so the request is passed through. -/
theorem C10_empty_result_zero (cfg : BillingCfg) (pid : String)
    (other : Except String QueryRow) (r : QueryRow)
    (hm : ¬ missing_billing_ids cfg pid)
    (hr : r = .noRow ∨ r = .row none) :
    ((get_monthly_cloud_cost cfg pid (.ok r) other).1 = some 0) ∧
    (∀ msg,
      (get_monthly_cloud_cost cfg pid (.error msg) (.ok r)).1 = some 0) ∧
    (∀ (env : GuardEnv) (d : String) (b : ℚ),
      is_exempt (pyOr env.path "/") = false →
      env.stores.get_user_department (resolve_identity env.header) =
        .ok (some d) →
      d ≠ "" →
      env.stores.get_department_budget d = .ok (some b) → 0 ≤ b →
      env.stores.get_monthly_cloud_cost = .ok (some 0) →
      (set_request_context env).result =
        .next env.call_next (session_of env)) := by
  refine ⟨?_, ?_, ?_⟩
  · rcases hr with rfl | rfl <;>
      simp [get_monthly_cloud_cost, hm, interpret_row]
  · intro msg
    rcases hr with rfl | rfl <;>
      simp [get_monthly_cloud_cost, hm, interpret_row]
  · intro env d b hex hd hd0 hb hbpos hc
    unfold set_request_context
    cases hen : env.budget_check_enabled <;>
      simp [hex, hd, hd0, hen, hb, hc, not_lt.mpr hbpos]

/-- C10 witness: with full billing configuration and a primary query
returning no rows, the oracle reports a zero cost. -/
theorem C10_witness :
    (get_monthly_cloud_cost demoCfg "" (.ok QueryRow.noRow)
        (.ok QueryRow.noRow)).1 = some 0 :=
  (C10_empty_result_zero demoCfg "" (.ok QueryRow.noRow) QueryRow.noRow
    (by decide) (Or.inl rfl)).1
